import Mathlib

/-!
# Verification of the saclib platform shims

Shallow embedding of the two patched saclib files:

* `build/pkgs/saclib/patches/sysdep.h` — a platform capability header that
  normalises the endianness markers `_LITTLE_ENDIAN_` / `_BIG_ENDIAN_` and
  the rounding-mode-availability marker `_X86_LINUX_` via preprocessor
  directives.  We embed the preprocessor as a state machine over the
  definedness of these three macros and translate the header body into a
  platform-dependent list of `#define` / `#undef` directives.

* `build/pkgs/saclib/patches/GC.c` — the garbage-collection trampoline
  `GC()`, which captures the machine execution context with `getcontext`
  and then calls the collector entry point `GCSI`.  We embed a run of `GC`
  as the trace of externally visible events it performs.
-/

namespace Saclib

/-! ## Platform model

The capability header branches on macros supplied by the system headers
`<endian.h>` and `<fenv.h>`: the value of `__BYTE_ORDER` and whether
`FE_DOWNWARD` and `FE_UPWARD` are defined.  These are inputs of the
compilation, so they are fields of a `Platform` record.  glibc's
`<endian.h>` fixes `__LITTLE_ENDIAN = 1234`, `__BIG_ENDIAN = 4321` and
`__PDP_ENDIAN = 3412` on every target. -/

/-- Value of the glibc macro `__LITTLE_ENDIAN` (fixed across targets). -/
def littleEndianValue : Nat := 1234

/-- Value of the glibc macro `__BIG_ENDIAN` (fixed across targets). -/
def bigEndianValue : Nat := 4321

/-- Value of the glibc macro `__PDP_ENDIAN` (fixed across targets). -/
def pdpEndianValue : Nat := 3412

/-- Compile-time facts about the target platform that the two files
consume: the reported byte order (`__BYTE_ORDER`), whether `<fenv.h>`
defines each of the two directed rounding-mode macros, and the pointer
size in bytes. -/
structure Platform where
  /-- The value of `__BYTE_ORDER` from `<endian.h>`. -/
  byteOrder : Nat
  /-- Whether `<fenv.h>` defines `FE_DOWNWARD`. -/
  feDownwardDefined : Bool
  /-- Whether `<fenv.h>` defines `FE_UPWARD`. -/
  feUpwardDefined : Bool
  /-- `sizeof(void *)` in bytes on this target. -/
  pointerSizeBytes : Nat
deriving DecidableEq, Repr

/-! ## The capability header `sysdep.h` -/

/-- The three preprocessor markers that `sysdep.h` manages. -/
inductive MacroName where
  | LITTLE_ENDIAN_MARKER
  | BIG_ENDIAN_MARKER
  | X86_LINUX_MARKER
deriving DecidableEq, Repr

/-- Definedness of the three markers at a point during preprocessing. -/
structure MarkerState where
  /-- Whether `_LITTLE_ENDIAN_` is currently defined. -/
  littleEndianDefined : Bool
  /-- Whether `_BIG_ENDIAN_` is currently defined. -/
  bigEndianDefined : Bool
  /-- Whether `_X86_LINUX_` is currently defined. -/
  x86LinuxDefined : Bool
deriving DecidableEq, Repr

/-- At the start of a compilation unit none of the three markers is
defined (absent external `-D` flags, which are modelled by starting from
a different `MarkerState`). -/
def initState : MarkerState :=
  { littleEndianDefined := false, bigEndianDefined := false, x86LinuxDefined := false }

/-- A preprocessor directive acting on one of the three markers. -/
inductive Directive where
  | defineMacro (m : MacroName)
  | undefMacro (m : MacroName)
deriving DecidableEq, Repr

/-- Effect of a single `#define` / `#undef` directive on the marker
state. -/
def applyDirective (s : MarkerState) : Directive → MarkerState
  | .defineMacro .LITTLE_ENDIAN_MARKER => { s with littleEndianDefined := true }
  | .defineMacro .BIG_ENDIAN_MARKER => { s with bigEndianDefined := true }
  | .defineMacro .X86_LINUX_MARKER => { s with x86LinuxDefined := true }
  | .undefMacro .LITTLE_ENDIAN_MARKER => { s with littleEndianDefined := false }
  | .undefMacro .BIG_ENDIAN_MARKER => { s with bigEndianDefined := false }
  | .undefMacro .X86_LINUX_MARKER => { s with x86LinuxDefined := false }

/-- Run a list of directives in order. -/
def runDirectives (s : MarkerState) (ds : List Directive) : MarkerState :=
  ds.foldl applyDirective s

/-- The body of `sysdep.h` as the list of directives the preprocessor
executes on platform `p`, translated line by line:

```
 #if __BYTE_ORDER == __LITTLE_ENDIAN
 # define _LITTLE_ENDIAN_
 # undef _BIG_ENDIAN_
 #else
 # undef _LITTLE_ENDIAN_
 # define _BIG_ENDIAN_
 #endif

 #if defined(FE_DOWNWARD) && defined(FE_UPWARD)
 # define _X86_LINUX_
 #endif
```

The header has no include guard, so every inclusion executes this whole
list again. -/
def sysdepDirectives (p : Platform) : List Directive :=
  (if p.byteOrder = littleEndianValue then
    [.defineMacro .LITTLE_ENDIAN_MARKER, .undefMacro .BIG_ENDIAN_MARKER]
  else
    [.undefMacro .LITTLE_ENDIAN_MARKER, .defineMacro .BIG_ENDIAN_MARKER]) ++
  (if p.feDownwardDefined && p.feUpwardDefined then
    [.defineMacro .X86_LINUX_MARKER]
  else [])

/-- Marker state after one inclusion of `sysdep.h` on platform `p`,
starting from marker state `s`. -/
def includeSysdep (p : Platform) (s : MarkerState) : MarkerState :=
  runDirectives s (sysdepDirectives p)

/-- Marker state after `n` successive inclusions of `sysdep.h`. -/
def includeSysdepN (n : Nat) (p : Platform) (s : MarkerState) : MarkerState :=
  match n with
  | 0 => s
  | n + 1 => includeSysdep p (includeSysdepN n p s)

/-- Exactly one of the two endianness markers is defined. -/
def exactlyOneEndianMarker (s : MarkerState) : Prop :=
  (s.littleEndianDefined = true ∧ s.bigEndianDefined = false) ∨
  (s.littleEndianDefined = false ∧ s.bigEndianDefined = true)

instance (s : MarkerState) : Decidable (exactlyOneEndianMarker s) := by
  unfold exactlyOneEndianMarker; infer_instance

/-! ## The trampoline `GC.c`

`GC` is embedded as the trace of externally visible events a single call
performs.  The event alphabet also contains a `runtimeError` event so
that an error path, had the C code contained one, would be expressible;
the translation of `GC` emits none. -/

/-- An externally visible event during a run of `GC`. -/
inductive Event where
  /-- The call `getcontext(&context)`: the context record at stack
  address `addr` is populated; `result` is the (discarded) return value
  of `getcontext`, `0` on success and `-1` on failure. -/
  | getcontextCall (addr : Nat) (result : Int)
  /-- The call `GCSI(wordSize, arg)`: the collector entry point is
  invoked. -/
  | gcsiCall (wordSize : Nat) (arg : Nat)
  /-- A run-time error path (never emitted by `GC`). -/
  | runtimeError
deriving DecidableEq, Repr

/-- Modelled from the spec: the type `Word` is declared in `saclib.h`,
which is not part of this excerpt; the spec states that the trampoline
passes "the machine pointer width in bytes" as its first argument, so
`sizeof(Word)` equals the platform's pointer size in bytes. -/
def sizeofWord (p : Platform) : Nat := p.pointerSizeBytes

/-- The body of `GC()` from `GC.c`, translated statement by statement:

```
void GC(void)
{
  ucontext_t context;

  getcontext (&context);
  GCSI(sizeof(Word), (char *)&context);
}
```

`ctxAddr` is the stack address of the local `context` record and
`getcontextResult` the value `getcontext` returns (discarded by the C
code).  `GC` takes no program arguments and returns no value; its
embedding returns the trace of events of one run. -/
def GC (p : Platform) (ctxAddr : Nat) (getcontextResult : Int) : List Event :=
  [.getcontextCall ctxAddr getcontextResult,
   .gcsiCall (sizeofWord p) ctxAddr]

/-- Whether an event is a call to the collector entry point `GCSI`. -/
def isGCSICall : Event → Bool
  | .gcsiCall _ _ => true
  | _ => false

/-- Whether an event is a call to `getcontext`. -/
def isGetcontextCall : Event → Bool
  | .getcontextCall _ _ => true
  | _ => false

/-! ## Characterisation of one inclusion of `sysdep.h` -/

/-- After one inclusion, `_LITTLE_ENDIAN_` is defined exactly when the
platform reports little-endian byte order. -/
theorem includeSysdep_littleEndian (p : Platform) (s : MarkerState) :
    (includeSysdep p s).littleEndianDefined =
      decide (p.byteOrder = littleEndianValue) := by
  by_cases hb : p.byteOrder = littleEndianValue <;>
    cases hfd : p.feDownwardDefined <;> cases hfu : p.feUpwardDefined <;>
      simp [includeSysdep, runDirectives, sysdepDirectives, applyDirective,
        hb, hfd, hfu]

/-- After one inclusion, `_BIG_ENDIAN_` is defined exactly when the
platform does not report little-endian byte order. -/
theorem includeSysdep_bigEndian (p : Platform) (s : MarkerState) :
    (includeSysdep p s).bigEndianDefined =
      !decide (p.byteOrder = littleEndianValue) := by
  by_cases hb : p.byteOrder = littleEndianValue <;>
    cases hfd : p.feDownwardDefined <;> cases hfu : p.feUpwardDefined <;>
      simp [includeSysdep, runDirectives, sysdepDirectives, applyDirective,
        hb, hfd, hfu]

/-- After one inclusion, `_X86_LINUX_` is defined when it was already
defined before, or when both directed rounding-mode macros exist. -/
theorem includeSysdep_x86Linux (p : Platform) (s : MarkerState) :
    (includeSysdep p s).x86LinuxDefined =
      (s.x86LinuxDefined || (p.feDownwardDefined && p.feUpwardDefined)) := by
  by_cases hb : p.byteOrder = littleEndianValue <;>
    cases hfd : p.feDownwardDefined <;> cases hfu : p.feUpwardDefined <;>
      simp [includeSysdep, runDirectives, sysdepDirectives, applyDirective,
        hb, hfd, hfu]

/-- One inclusion always leaves exactly one endianness marker defined. -/
theorem includeSysdep_exactlyOne (p : Platform) (s : MarkerState) :
    exactlyOneEndianMarker (includeSysdep p s) := by
  unfold exactlyOneEndianMarker
  rw [includeSysdep_littleEndian, includeSysdep_bigEndian]
  by_cases hb : p.byteOrder = littleEndianValue <;> simp [hb]

/-- Including `sysdep.h` twice in a row is the same as including it
once. -/
theorem includeSysdep_idem (p : Platform) (s : MarkerState) :
    includeSysdep p (includeSysdep p s) = includeSysdep p s := by
  rcases p with ⟨b, fd, fu, ps⟩
  rcases s with ⟨l, bg, x⟩
  by_cases hb : b = littleEndianValue <;> cases fd <;> cases fu <;>
    simp [includeSysdep, runDirectives, sysdepDirectives, applyDirective, hb]

/-- After `n + 1` inclusions the marker state is that of a single
inclusion applied to the state reached after `n` inclusions; collapsing
by idempotence, any positive number of inclusions equals one. -/
theorem includeSysdepN_succ_eq (n : Nat) (p : Platform) (s : MarkerState) :
    includeSysdepN (n + 1) p s = includeSysdep p s := by
  induction n with
  | zero => rfl
  | succ m ih =>
      show includeSysdep p (includeSysdepN (m + 1) p s) = includeSysdep p s
      rw [ih, includeSysdep_idem]

/-! ## The claims -/

/-- C1: every invocation of the trampoline `GC` calls the collector
entry point `GCSI` exactly once, and the first (word-size) argument of
every `GCSI` call in its trace equals the platform's pointer size in
bytes. -/
theorem GC_calls_GCSI_once_with_pointer_size (p : Platform) (a : Nat) (r : Int) :
    ((GC p a r).filter isGCSICall).length = 1 ∧
    ∀ w arg, Event.gcsiCall w arg ∈ GC p a r → w = p.pointerSizeBytes := by
  refine ⟨rfl, ?_⟩
  intro w arg h
  simp only [GC, sizeofWord, List.mem_cons, List.mem_singleton,
    List.not_mem_nil, or_false] at h
  rcases h with h | h
  · exact absurd h (by simp)
  · exact (Event.gcsiCall.inj h).1

/-- C2: when the rounding-mode marker `_X86_LINUX_` is not already
defined before the inclusion, it is defined after including `sysdep.h`
if and only if the platform exposes both the upward and the downward
directed rounding mode; with only one or neither mode it stays
absent. -/
theorem x86Linux_defined_iff_both_modes (p : Platform) (s : MarkerState)
    (h : s.x86LinuxDefined = false) :
    (includeSysdep p s).x86LinuxDefined = true ↔
      (p.feDownwardDefined = true ∧ p.feUpwardDefined = true) := by
  rw [includeSysdep_x86Linux, h]
  cases p.feDownwardDefined <;> cases p.feUpwardDefined <;> simp

/-- Witness for C2: on a platform exposing only the upward mode, and
with no marker defined beforehand, `_X86_LINUX_` is absent after
inclusion. -/
theorem x86Linux_defined_iff_both_modes_witness :
    initState.x86LinuxDefined = false ∧
    ((includeSysdep ⟨littleEndianValue, false, true, 8⟩ initState).x86LinuxDefined = true ↔
      ((false : Bool) = true ∧ (true : Bool) = true)) :=
  ⟨rfl, x86Linux_defined_iff_both_modes ⟨littleEndianValue, false, true, 8⟩ initState rfl⟩

/-- C3: after any positive number of inclusions of `sysdep.h`, starting
from any prior marker state, exactly one of `_LITTLE_ENDIAN_` and
`_BIG_ENDIAN_` is defined — never both, never neither. -/
theorem exactly_one_endian_marker (n : Nat) (p : Platform) (s : MarkerState)
    (h : 1 ≤ n) :
    exactlyOneEndianMarker (includeSysdepN n p s) := by
  cases n with
  | zero => exact absurd h (by decide)
  | succ m => rw [includeSysdepN_succ_eq]; exact includeSysdep_exactlyOne p s

/-- Witness for C3: two inclusions on a big-endian platform, starting
from a conflicting prior state with both markers defined. -/
theorem exactly_one_endian_marker_witness :
    1 ≤ 2 ∧ exactlyOneEndianMarker (includeSysdepN 2 ⟨bigEndianValue, true, true, 8⟩
      ⟨true, true, false⟩) :=
  ⟨by decide,
   exactly_one_endian_marker 2 ⟨bigEndianValue, true, true, 8⟩ ⟨true, true, false⟩ (by decide)⟩

/-- C4: processing the byte-order check overwrites the previous state of
both endianness markers — the resulting endianness markers do not depend
on the prior state, and exactly one of them is active, so repeated or
conflicting inclusion can leave neither both markers nor no marker
defined. -/
theorem endian_markers_overwritten (p : Platform) (s t : MarkerState) :
    (includeSysdep p s).littleEndianDefined = (includeSysdep p t).littleEndianDefined ∧
    (includeSysdep p s).bigEndianDefined = (includeSysdep p t).bigEndianDefined ∧
    exactlyOneEndianMarker (includeSysdep p s) := by
  refine ⟨?_, ?_, includeSysdep_exactlyOne p s⟩
  · rw [includeSysdep_littleEndian, includeSysdep_littleEndian]
  · rw [includeSysdep_bigEndian, includeSysdep_bigEndian]

/-- C5: `GC` returns no value (its embedding yields only a trace of
events); every `GCSI` call in the trace receives as its second argument
the address of the captured context record, and is preceded (strictly
earlier in the trace) by the `getcontext` call that populates that very
record. -/
theorem GC_capture_precedes_GCSI (p : Platform) (a : Nat) (r : Int) :
    (∀ j w arg, (GC p a r).get? j = some (.gcsiCall w arg) →
      arg = a ∧ ∃ i res, i < j ∧ (GC p a r).get? i = some (.getcontextCall arg res)) ∧
    (∃ j w, (GC p a r).get? j = some (.gcsiCall w a)) := by
  constructor
  · intro j w arg h
    match j with
    | 0 => exact absurd h (by simp [GC])
    | 1 =>
        simp only [GC, List.get?] at h
        injection h with h
        injection h with _ harg
        exact ⟨harg.symm, 0, r, by omega, by simp [GC, harg]⟩
    | (j + 2) => exact absurd h (by simp [GC])
  · exact ⟨1, sizeofWord p, rfl⟩

/-- C6: including `sysdep.h` two or more times in the same compilation
unit leaves the same final marker state (endianness markers and
rounding-mode marker) as a single inclusion. -/
theorem sysdep_reinclusion_idempotent (n : Nat) (p : Platform) (s : MarkerState)
    (h : 2 ≤ n) :
    includeSysdepN n p s = includeSysdepN 1 p s := by
  cases n with
  | zero => exact absurd h (by decide)
  | succ m =>
      rw [includeSysdepN_succ_eq]
      rfl

/-- Witness for C6: three inclusions equal one inclusion on a concrete
little-endian platform with both rounding modes. -/
theorem sysdep_reinclusion_idempotent_witness :
    2 ≤ 3 ∧ includeSysdepN 3 ⟨littleEndianValue, true, true, 8⟩ initState =
      includeSysdepN 1 ⟨littleEndianValue, true, true, 8⟩ initState :=
  ⟨by decide,
   sysdep_reinclusion_idempotent 3 ⟨littleEndianValue, true, true, 8⟩ initState (by decide)⟩

/-- C7: `GC` has no run-time error path: for every input — including a
`getcontext` result of `-1`, the value reported when the context-capture
facility fails at run time — the run emits no run-time error event and
still reaches the `GCSI` call. -/
theorem GC_no_runtime_error (p : Platform) (a : Nat) (r : Int) :
    Event.runtimeError ∉ GC p a r ∧
    ∃ w arg, Event.gcsiCall w arg ∈ GC p a r := by
  refine ⟨?_, sizeofWord p, a, by simp [GC]⟩
  simp [GC]

/-- C8: `GC` discards the return value of `getcontext`: the `GCSI` calls
in the trace are identical for every `getcontext` result, and in
particular when `getcontext` returns `-1` the collector entry point is
still called with the address of the (possibly unpopulated) context
record. -/
theorem GC_ignores_getcontext_result (p : Platform) (a : Nat) (r : Int) :
    (GC p a (-1)).filter isGCSICall = (GC p a r).filter isGCSICall ∧
    Event.gcsiCall (sizeofWord p) a ∈ GC p a (-1) := by
  exact ⟨rfl, by simp [GC]⟩

/-- C9: the endianness detection is two-way only: whenever the reported
byte order differs from the little-endian constant — including the PDP
mixed-endian value — the header classifies the platform as big-endian,
defining `_BIG_ENDIAN_` and leaving `_LITTLE_ENDIAN_` undefined. -/
theorem non_little_classified_big (p : Platform) (s : MarkerState)
    (h : p.byteOrder ≠ littleEndianValue) :
    (includeSysdep p s).bigEndianDefined = true ∧
    (includeSysdep p s).littleEndianDefined = false := by
  rw [includeSysdep_bigEndian, includeSysdep_littleEndian]
  simp [h]

/-- Witness for C9: a PDP (mixed-endian) platform is classified as
big-endian. -/
theorem non_little_classified_big_witness :
    pdpEndianValue ≠ littleEndianValue ∧
    ((includeSysdep ⟨pdpEndianValue, true, true, 8⟩ initState).bigEndianDefined = true ∧
     (includeSysdep ⟨pdpEndianValue, true, true, 8⟩ initState).littleEndianDefined = false) :=
  ⟨by decide, non_little_classified_big ⟨pdpEndianValue, true, true, 8⟩ initState (by decide)⟩

/-- C10: the header never undefines `_X86_LINUX_`: if the marker is
defined before the inclusion, it is still defined afterwards, even on a
platform exposing neither directed rounding mode. -/
theorem x86Linux_never_undefined (p : Platform) (s : MarkerState)
    (h : s.x86LinuxDefined = true) :
    (includeSysdep p s).x86LinuxDefined = true := by
  rw [includeSysdep_x86Linux, h]
  simp

/-- Witness for C10: with the marker pre-defined and a platform lacking
both rounding modes, the marker survives the inclusion. -/
theorem x86Linux_never_undefined_witness :
    (MarkerState.mk false false true).x86LinuxDefined = true ∧
    (includeSysdep ⟨bigEndianValue, false, false, 4⟩ ⟨false, false, true⟩).x86LinuxDefined = true :=
  ⟨rfl, x86Linux_never_undefined ⟨bigEndianValue, false, false, 4⟩ ⟨false, false, true⟩ rfl⟩

end Saclib
